import Mathlib

/-!
Verification of the step-progression state machine, guard chain, store layer,
document extractor and score parser of `my_agent_bot.py`.

Strings of the Python source are modelled as `List Char` (a Python `str` is a
sequence of Unicode code points); `str.strip`, `str.lower`, `str.replace`,
`in`, `endswith` and the one regular expression the program uses are
reimplemented below over `List Char`, following the source line by line.
-/

namespace AgentBot

/-! ## Character and list-of-character utilities (Python string operations) -/

/-- Python `str.strip()`: drop whitespace from both ends. -/
def strip (cs : List Char) : List Char :=
  ((cs.dropWhile Char.isWhitespace).reverse.dropWhile Char.isWhitespace).reverse

/-- Python `str.lower()` (ASCII letters; the program only compares ASCII tokens). -/
def lowerCs (cs : List Char) : List Char :=
  cs.map Char.toLower

/-- `message.content.strip().lower()` as computed at line 496 of the source. -/
def normMsg (cs : List Char) : List Char :=
  lowerCs (strip cs)

/-- Decidable list-prefix test. -/
def isPre : List Char → List Char → Bool
  | [], _ => true
  | _ :: _, [] => false
  | p :: ps, c :: cs => p == c && isPre ps cs

/-- Python `pat in s` for a nonempty pattern: `pat` occurs as a contiguous
substring of `s`. -/
def containsSub (pat : List Char) : List Char → Bool
  | [] => isPre pat []
  | c :: cs => isPre pat (c :: cs) || containsSub pat cs

/-- Python `str.endswith(suffix)`. -/
def endsWithCs (cs suffix : List Char) : Bool :=
  isPre suffix.reverse cs.reverse

/-- One step of Python `str.replace(pat, "")`, fuelled by the text length:
at each position, if the (nonempty) pattern starts here, drop it and continue
after it; otherwise keep the character.  This is the left-to-right
non-overlapping scan `str.replace` performs. -/
def replaceAllFuel (pat : List Char) : Nat → List Char → List Char
  | _, [] => []
  | 0, cs => cs
  | Nat.succ n, c :: cs =>
    if !pat.isEmpty && isPre pat (c :: cs) then
      replaceAllFuel pat n ((c :: cs).drop pat.length)
    else
      c :: replaceAllFuel pat n cs

/-- Python `text.replace(pat, "")`. -/
def replaceAll (pat text : List Char) : List Char :=
  replaceAllFuel pat text.length text

/-- `"\n".join(items)`. -/
def joinLines : List (List Char) → List Char
  | [] => []
  | [x] => x
  | x :: y :: xs => x ++ '\n' :: joinLines (y :: xs)

/-! ## The completion marker and the guard chain (source lines 494-528) -/

/-- The completion marker `[STEP_COMPLETED]` scanned for at line 494. -/
def marker : List Char := "[STEP_COMPLETED]".data

/-- The explicit advance command. -/
def nextCmd : List Char := "/next".data

/-- The advance phrase searched for by `"next step" in last_user_message`. -/
def nextStepPhrase : List Char := "next step".data

/-- The fixed greeting set of line 525:
`common_phrases = ["hi", "hello", "hey", "start", "begin"]`. -/
def common_phrases : List (List Char) :=
  ["hi".data, "hello".data, "hey".data, "start".data, "begin".data]

/-- Guard 1 of line 511:
`last_user_message == "/next" or "next step" in last_user_message`. -/
def guard1 (m : List Char) : Bool :=
  m == nextCmd || containsSub nextStepPhrase m

/-- Line 526: `any(phrase == last_user_message for phrase in common_phrases)`. -/
def isGreeting (m : List Char) : Bool :=
  common_phrases.any (fun phrase => phrase == m)

/-- Reason string set by guard 1 (line 513). -/
def nextReason : List Char := "user requested next step".data

/-- Reason f-string of line 518: `insufficient interactions (only k)`. -/
def insufficientReason (k : Nat) : List Char :=
  "insufficient interactions (only ".data ++ (Nat.repr k).data ++ ")".data

/-- Reason string of line 523. -/
def tooShortReason : List Char := "message too short".data

/-- Reason string of line 528. -/
def greetingReason : List Char := "message contains only greeting".data

/-- The pair `(skip_advancement, advancement_reason)` of lines 502-528. -/
structure GuardDecision where
  skip_advancement : Bool
  advancement_reason : Option (List Char)
  deriving Repr, DecidableEq

/-- The `if/elif/elif` chain of lines 511-523 (guards 1-3), before the
separate greeting check. `m` is the normalized user message,
`interaction_count` the per-step counter as read at line 508. -/
def evalGuards123 (m : List Char) (interaction_count : Nat) : GuardDecision :=
  if guard1 m then
    ⟨false, some nextReason⟩
  else if interaction_count < 2 then
    ⟨true, some (insufficientReason interaction_count)⟩
  else if m.length < 10 && m != nextCmd then
    ⟨true, some tooShortReason⟩
  else
    ⟨false, none⟩

/-- The full guard evaluation of lines 502-528: the chain of guards 1-3
followed by the unconditional greeting check of lines 525-528, which
overwrites both fields when the message equals a greeting token verbatim. -/
def evalGuards (m : List Char) (interaction_count : Nat) : GuardDecision :=
  let d := evalGuards123 m interaction_count
  if isGreeting m then
    ⟨true, some greetingReason⟩
  else
    d

/-! ## Data model: pitch steps, session, log and store layer -/

/-- The five fixed pitch steps (source lines 199-205). -/
def pitch_steps : List (List Char) :=
  ["Identify the Target Audience".data,
   "Define the Problem/Need".data,
   "Introduce the Product/Service".data,
   "Highlight the Key Differentiator".data,
   "End with a Strong Closing Statement".data]

/-- `total_steps = len(pitch_steps)` (line 322). -/
def total_steps : Nat := pitch_steps.length

/-- Severity of a `logging` call: `logging.info` / `logging.warning` /
`logging.error`. -/
inductive LogLevel where
  | info
  | warning
  | error
  deriving Repr, DecidableEq

/-- One log record. -/
structure LogEntry where
  level : LogLevel
  text : List Char
  deriving Repr, DecidableEq

/-- The in-memory session held in `cl.user_session`: current step index,
current step name, selected agent, the per-step interaction dictionary
(`step_interactions`, read with default 0 and modelled as a total map from
the step index), and the per-agent conversation histories. -/
structure Session where
  current_step_index : Nat
  current_step : List Char
  agent : List Char
  step_interactions : Nat → Nat
  memory : List Char → List (List Char)

/-- Lines 483-488: insert-0-then-increment of `step_interactions[key]`. -/
def bumpStep (f : Nat → Nat) (k : Nat) : Nat → Nat :=
  fun j => if j = k then f j + 1 else f j

/-- Line 583-584: append the user message and the (cleaned) reply to the
selected agent's history. -/
def appendMem (mem : List Char → List (List Char)) (agent msg ai : List Char) :
    List Char → List (List Char) :=
  fun a => if a = agent then mem a ++ [msg, ai] else mem a

/-- Outcome of one attempted database operation: the awaited coroutine either
runs to completion (`ok`) or some `asyncpg` call raises an exception carrying
message `err` (`fail`) — which every store function catches. -/
inductive DbOutcome where
  | ok
  | fail (err : List Char)
  deriving Repr, DecidableEq

/-- What a store function hands back to its caller: the boolean the Python
function returns (it never raises) plus what it logged. -/
structure StoreResult where
  success : Bool
  logs : List LogEntry
  deriving Repr, DecidableEq

/-- `save_session_to_db` (source lines 25-68): returns `False` when
`DATABASE_URL` is unset, `False` with an error log when any database call
raises, `True` otherwise.  The optional arguments only shape the SQL text. -/
def save_session_to_db (database_url : Option (List Char)) (db : DbOutcome)
    (student_id : List Char) (current_step_index : Nat)
    (total_interactions : Option Nat) (last_message_content : Option (List Char)) :
    StoreResult :=
  match database_url with
  | none => ⟨false, [⟨.error, "DATABASE_URL environment variable not set".data⟩]⟩
  | some _ =>
    match db with
    | .ok => ⟨true, [⟨.info, "Session saved for student ".data ++ student_id⟩]⟩
    | .fail e => ⟨false, [⟨.error, "Error saving session: ".data ++ e⟩]⟩

/-- `save_pitch_evaluation` (source lines 70-100): same catch-all shape. -/
def save_pitch_evaluation (database_url : Option (List Char)) (db : DbOutcome)
    (student_id step_name : List Char) (score : Option Nat) (feedback : List Char) :
    StoreResult :=
  match database_url with
  | none => ⟨false, [⟨.error, "DATABASE_URL environment variable not set".data⟩]⟩
  | some _ =>
    match db with
    | .ok => ⟨true, [⟨.info, "Pitch evaluation saved for student ".data ++ student_id⟩]⟩
    | .fail e => ⟨false, [⟨.error, "Error saving pitch evaluation: ".data ++ e⟩]⟩

/-- `increment_interactions` (source lines 102-126): same catch-all shape. -/
def increment_interactions (database_url : Option (List Char)) (db : DbOutcome)
    (student_id : List Char) : StoreResult :=
  match database_url with
  | none => ⟨false, [⟨.error, "DATABASE_URL environment variable not set".data⟩]⟩
  | some _ =>
    match db with
    | .ok => ⟨true, [⟨.info, "Incremented interactions for student ".data ++ student_id⟩]⟩
    | .fail e => ⟨false, [⟨.error, "Error incrementing interactions: ".data ++ e⟩]⟩

/-! ## User-visible messages and store calls -/

/-- The user-visible messages `main` and `process_file` can send, kept as
distinct constructors (their literal texts are fixed in the source). -/
inductive Notification where
  | sessionError
  | progressReport (elapsed_minutes : Nat) (progress_percentage : Nat)
      (current_step : List Char) (step_number : Nat)
      (interaction_count : Nat) (remaining : Nat)
  | noFileUploaded
  | agentSwitched (agent : List Char)
  | processingError
  | stepAdvanced (next_step : List Char)
  | allStepsComplete
  | cannotExtract
  | evaluationComplete (score : Option Nat) (feedback : List Char)
  | evaluationError
  deriving Repr, DecidableEq

/-- A database write the handler attempted (whether or not it succeeded). -/
inductive StoreCall where
  | upsertSession (student_id : List Char) (step_index : Nat) (total_interactions : Option Nat)
  | insertEvaluation (student_id step_name : List Char) (score : Option Nat) (feedback : List Char)
  | bumpInteractions (student_id : List Char)
  deriving Repr, DecidableEq

/-- Everything observable about handling one inbound message: the session
afterwards, the text left displayed in the streamed reply, the extra messages
sent, the log records, and the store writes attempted. -/
structure Outcome where
  session : Session
  displayed_text : List Char
  notifications : List Notification
  logs : List LogEntry
  store_calls : List StoreCall

/-- The percentage-complete figure reported by the first progress report of
an outcome, if any. -/
def reportedPct (o : Outcome) : Option Nat :=
  o.notifications.findSome? fun n =>
    match n with
    | .progressReport _ pct _ _ _ _ => some pct
    | _ => none

/-- The interaction count reported by the first progress report of an
outcome, if any. -/
def reportedCount (o : Outcome) : Option Nat :=
  o.notifications.findSome? fun n =>
    match n with
    | .progressReport _ _ _ _ count _ => some count
    | _ => none

/-- Line 532 log: `Skipping step advancement for student {id}: {reason}`. -/
def skipLog (sid reason : List Char) : LogEntry :=
  ⟨.info, "Skipping step advancement for student ".data ++ sid ++ ": ".data ++ reason⟩

/-- Line 534 log: `Step advancement approved for student {id} with {k} interactions`. -/
def approveLog (sid : List Char) (k : Nat) : LogEntry :=
  ⟨.info, "Step advancement approved for student ".data ++ sid ++
    " with ".data ++ (Nat.repr k).data ++ " interactions".data⟩

/-! ## Document extractor and evaluation pipeline inputs -/

/-- A file handed to `process_file`: its name, what parsing it yields (the
per-page texts for a PDF, the per-paragraph texts for a DOCX) or the parse
exception, and what the evaluator chain returns for its text (feedback text,
or the exception raised). -/
structure UploadedFile where
  name : List Char
  parse : Except (List Char) (List (List Char))
  evalResult : Except (List Char) (List Char)

/-- `extract_text_from_file` (source lines 140-155): branch on the file-name
suffix; PDF joins the nonempty page texts, DOCX joins the paragraph texts;
any other suffix logs a warning and returns `None`; a parse exception logs an
error and returns `None`.  The function never raises: its value is the pair
(returned text, logs). -/
def extract_text_from_file (name : List Char)
    (parse : Except (List Char) (List (List Char))) :
    Option (List Char) × List LogEntry :=
  if endsWithCs name ".pdf".data then
    match parse with
    | .ok pages => (some (joinLines (pages.filter (fun p => !p.isEmpty))), [])
    | .error e =>
      (none, [⟨.error, "Error extracting text from ".data ++ name ++ ": ".data ++ e⟩])
  else if endsWithCs name ".docx".data then
    match parse with
    | .ok paras => (some (joinLines paras), [])
    | .error e =>
      (none, [⟨.error, "Error extracting text from ".data ++ name ++ ": ".data ++ e⟩])
  else
    (none, [⟨.warning, "Unsupported file type: ".data ++ name⟩])

/-! ## The score regular expression (source line 631)

`re.search(r"[Ss]core[:\s]+(\d{1,2})\s*/\s*10", feedback)` followed by
`int(match.group(1)) if match else None`.  The matcher below is that regular
expression specialised: scan left to right for the first position where the
pattern matches; `[:\s]+` is greedy and disjoint from `\d`, so its extent is
the maximal run; `\d{1,2}` tries two digits, then backtracks to one. -/

/-- Python `\d` on the inputs in question: an ASCII digit. -/
def isDigitCh (c : Char) : Bool :=
  48 ≤ c.toNat && c.toNat ≤ 57

/-- Python `\s` (ASCII whitespace as the prompts produce it). -/
def isSpaceCh (c : Char) : Bool :=
  c == ' ' || c == '\t' || c == '\n' || c == '\r' || c.toNat == 11 || c.toNat == 12

/-- Member of the class `[:\s]`. -/
def isColonSpace (c : Char) : Bool :=
  c == ':' || isSpaceCh c

/-- Numeric value of an ASCII digit. -/
def digitVal (c : Char) : Nat := c.toNat - 48

/-- Match `\s*/\s*10` at the head of the list. -/
def matchSlash10 (cs : List Char) : Bool :=
  match cs.dropWhile isSpaceCh with
  | '/' :: rest => isPre "10".data (rest.dropWhile isSpaceCh)
  | _ => false

/-- Match `(\d{1,2})\s*/\s*10` at the head of the list, greedily: two digits
first, then backtrack to one. -/
def matchDigitsSlash : List Char → Option Nat
  | [] => none
  | d1 :: rest =>
    if isDigitCh d1 then
      match rest with
      | d2 :: rest2 =>
        if isDigitCh d2 then
          if matchSlash10 rest2 then some (digitVal d1 * 10 + digitVal d2)
          else if matchSlash10 rest then some (digitVal d1)
          else none
        else if matchSlash10 rest then some (digitVal d1) else none
      | [] => none
    else none

/-- Match the whole pattern `[Ss]core[:\s]+(\d{1,2})\s*/\s*10` at the head of
the list. -/
def matchScoreAt : List Char → Option Nat
  | [] => none
  | c :: rest =>
    if c == 'S' || c == 's' then
      if isPre "core".data rest then
        match rest.drop 4 with
        | [] => none
        | x :: xs =>
          if isColonSpace x then matchDigitsSlash (xs.dropWhile isColonSpace)
          else none
      else none
    else none

/-- `re.search`: the leftmost position where the pattern matches, or `None`. -/
def findScore : List Char → Option Nat
  | [] => none
  | c :: cs =>
    match matchScoreAt (c :: cs) with
    | some n => some n
    | none => findScore cs

/-- Modelled from the claim text of C3, for comparison with `findScore`
(which is translated from the source): the first 1-2 digit integer
immediately preceding a literal `/10`, a score label optionally preceding it
(so the label imposes no constraint at all on where a match may start). -/
def claimMatchAt : List Char → Option Nat
  | c1 :: c2 :: rest =>
    if isDigitCh c1 && isDigitCh c2 && isPre "/10".data rest then
      some (digitVal c1 * 10 + digitVal c2)
    else if isDigitCh c1 && isPre "/10".data (c2 :: rest) then
      some (digitVal c1)
    else none
  | _ => none

/-- Modelled from the claim text of C3: leftmost match of `claimMatchAt`. -/
def claimScore : List Char → Option Nat
  | [] => none
  | c :: cs =>
    match claimMatchAt (c :: cs) with
    | some n => some n
    | none => claimScore cs

/-- The environment one message is handled in: the session's student id
(`None` models an expired session), the `DATABASE_URL` variable, the database
world, the elapsed minutes shown by `/progress`, and the file the `/upload`
dialog produced, if any. -/
structure Env where
  student_id : Option (List Char)
  database_url : Option (List Char)
  db : DbOutcome
  elapsed_minutes : Nat
  upload : Option UploadedFile

/-- `process_file` (source lines 611-676).  Extraction runs first; a missing
or empty (`if not pitch_text`: Python falsiness) result sends the
unsupported-format message and returns before any evaluation; otherwise the
evaluator chain runs, the score is parsed with the regular expression, the
evaluation is written to the store best-effort, and the feedback is shown
with the full text verbatim.  An evaluator exception is caught (lines
659-676) and surfaced as an error message without any store write. -/
def process_file (env : Env) (sid : List Char) (s : Session) (f : UploadedFile) : Outcome :=
  let ext := extract_text_from_file f.name f.parse
  match ext.1 with
  | none =>
    ⟨s, [], [.cannotExtract], ext.2, []⟩
  | some t =>
    if t.isEmpty then
      ⟨s, [], [.cannotExtract], ext.2, []⟩
    else
      match f.evalResult with
      | .error e =>
        ⟨s, [], [.evaluationError],
          ext.2 ++ [⟨.error, "Evaluation Error: ".data ++ e⟩], []⟩
      | .ok feedback =>
        let score := findScore feedback
        let sv := save_pitch_evaluation env.database_url env.db sid s.current_step score feedback
        ⟨s, [], [.evaluationComplete score feedback],
          ext.2 ++ sv.logs ++
            (if sv.success then []
             else [⟨.warning, "Failed to save pitch evaluation for student ".data ++ sid⟩]),
          [.insertEvaluation sid s.current_step score feedback]⟩

/-- The free-text path of `main` for the Mentor agent (source lines 481-591):
increment the per-step counter, then — when the reply carries the completion
marker — normalize the user message, evaluate the guards against the counter
as it now stands, strip every occurrence of the marker from the displayed
text, and either log the skip or commit the advance (lines 545-579:
increment the index and persist when below the last step; at the last step
persist once more and send the all-steps-complete message instead).  The
reply as displayed is appended to the Mentor history (line 584) and the
cumulative interaction counter is incremented in the store (line 589). -/
def mentorFlow (env : Env) (sid : List Char) (s : Session) (content ai_text : List Char) :
    Outcome :=
  let k := s.current_step_index
  let counts := bumpStep s.step_interactions k
  let incr := increment_interactions env.database_url env.db sid
  if containsSub marker ai_text then
    let last := normMsg content
    let count := counts k
    let d := evalGuards last count
    let displayed := replaceAll marker ai_text
    let s2 : Session :=
      { s with step_interactions := counts,
               memory := appendMem s.memory s.agent content displayed }
    if d.skip_advancement then
      ⟨s2, displayed, [],
        [skipLog sid (d.advancement_reason.getD [])] ++ incr.logs,
        [.bumpInteractions sid]⟩
    else if k < total_steps - 1 then
      let idx := k + 1
      let stepName := pitch_steps.getD idx []
      let sv := save_session_to_db env.database_url env.db sid idx (some count) none
      ⟨{ s2 with current_step_index := idx, current_step := stepName },
        displayed, [.stepAdvanced stepName],
        [approveLog sid count] ++ sv.logs ++ incr.logs,
        [.upsertSession sid idx (some count), .bumpInteractions sid]⟩
    else if k = total_steps - 1 then
      let sv := save_session_to_db env.database_url env.db sid k (some count) none
      ⟨s2, displayed, [.allStepsComplete],
        [approveLog sid count] ++ sv.logs ++ incr.logs,
        [.upsertSession sid k (some count), .bumpInteractions sid]⟩
    else
      ⟨s2, displayed, [],
        [approveLog sid count] ++ incr.logs,
        [.bumpInteractions sid]⟩
  else
    ⟨{ s with step_interactions := counts,
              memory := appendMem s.memory s.agent content ai_text },
      ai_text, [], incr.logs, [.bumpInteractions sid]⟩

/-- The agent-switch command list of line 419. -/
def switchCmds : List (List Char) :=
  ["/mentor".data, "/peer".data, "/progress".data, "/eval".data]

/-- `main` (source lines 360-609), one inbound message.  `content` is the
message text, `ai` what the completion call produces for a free-text message
(`Except.error` models the exception path of lines 593-609, in which nothing
has been mutated yet).  Branches in source order: missing student id;
`/progress` (lines 386-401 — reads state, sends one report, mutates
nothing; the percentage `int(i / total * 100)` equals `i * 100 / total` in
integer arithmetic on the reachable indices 0-4); `/upload`; the four agent
switch commands; then free text through the selected agent. -/
def mainHandle (env : Env) (s : Session) (content : List Char)
    (ai : Except (List Char) (List Char)) : Outcome :=
  match env.student_id with
  | none => ⟨s, [], [.sessionError], [], []⟩
  | some sid =>
    let lmsg := lowerCs content
    if lmsg == "/progress".data then
      let count := s.step_interactions s.current_step_index
      ⟨s, [],
        [.progressReport env.elapsed_minutes (s.current_step_index * 100 / total_steps)
          s.current_step (s.current_step_index + 1) count (2 - count)],
        [], []⟩
    else if lmsg == "/upload".data then
      match env.upload with
      | some f => process_file env sid s f
      | none => ⟨s, [], [.noFileUploaded], [], []⟩
    else if lmsg ∈ switchCmds then
      ⟨{ s with agent := lmsg.drop 1 }, [], [.agentSwitched (lmsg.drop 1)], [], []⟩
    else
      match ai with
      | .error e =>
        ⟨s, [], [.processingError],
          [⟨.error, "Error in message processing: ".data ++ e⟩], []⟩
      | .ok ai_text =>
        if s.agent == "mentor".data then
          mentorFlow env sid s content ai_text
        else
          ⟨{ s with memory := appendMem s.memory s.agent content ai_text },
            ai_text, [],
            (increment_interactions env.database_url env.db sid).logs,
            [.bumpInteractions sid]⟩

/-- A convenient concrete environment for scenario checks. -/
def envOk : Env :=
  ⟨some "12345678".data, some "postgres://db".data, .ok, 3, none⟩

/-- The session `start()` creates (source lines 305-328): index 0, first
step, Mentor agent, empty interaction dictionary, empty histories. -/
def freshSession : Session :=
  ⟨0, pitch_steps.getD 0 [], "mentor".data, fun _ => 0, fun _ => []⟩

/-- A concrete session at the last step (index 4) with one prior interaction
on it. -/
def termSession : Session :=
  ⟨4, pitch_steps.getD 4 [], "mentor".data, fun _ => 1, fun _ => []⟩

/-- A Mentor reply carrying the completion marker twice, for scenario A. -/
def scenarioAReply : List Char :=
  "Good work so far! [STEP_COMPLETED] Keep going. [STEP_COMPLETED]".data

/-- Scenario E evaluator feedback text. -/
def scenarioEFeedback : List Char :=
  "Great pitch! Score: 8/10. Needs tighter closing.".data

/-! ## Helper lemmas -/

/-- Cross-validation of the matcher against the behaviour of
`re.search(r"[Ss]core[:\s]+(\d{1,2})\s*/\s*10", ...)` on edge cases
(greedy two-digit capture with backtracking, required label, initial-letter
case variation only, whitespace around the slash, no word boundary). -/
theorem findScore_edge_cases :
    findScore "score 10/10 wow".data = some 10 ∧
    findScore "Score: 123/10".data = none ∧
    findScore "Underscore: 8 / 10".data = some 8 ∧
    findScore "no digits here".data = none ∧
    findScore "Score:: 08/10".data = some 8 ∧
    findScore "sCore: 8/10".data = none ∧
    findScore "Score: 8/100".data = some 8 ∧
    findScore "ascore: 7/10".data = some 7 ∧
    findScore "Score: 5 / 1 0".data = none := by
  decide

theorem total_steps_eq : total_steps = 5 := rfl

theorem bumpStep_self (f : Nat → Nat) (k : Nat) : bumpStep f k k = f k + 1 := by
  simp [bumpStep]

theorem greeting_elim (m : List Char) (h : isGreeting m = true) :
    m = "hi".data ∨ m = "hello".data ∨ m = "hey".data ∨ m = "start".data ∨
      m = "begin".data := by
  simp only [isGreeting, common_phrases, List.any_cons, List.any_nil,
    Bool.or_eq_true, beq_iff_eq] at h
  rcases h with h | h | h | h | h | h
  · exact Or.inl h.symm
  · exact Or.inr (Or.inl h.symm)
  · exact Or.inr (Or.inr (Or.inl h.symm))
  · exact Or.inr (Or.inr (Or.inr (Or.inl h.symm)))
  · exact Or.inr (Or.inr (Or.inr (Or.inr h.symm)))
  · exact absurd h (by decide)

theorem greeting_not_guard1 (m : List Char) (h : isGreeting m = true) :
    guard1 m = false := by
  rcases greeting_elim m h with h | h | h | h | h <;> subst h <;> decide

theorem greeting_short (m : List Char) (h : isGreeting m = true) :
    (decide (m.length < 10) && m != nextCmd) = true := by
  rcases greeting_elim m h with h | h | h | h | h <;> subst h <;> decide

theorem greeting_blocked123 (m : List Char) (k : Nat) (h : isGreeting m = true) :
    (evalGuards123 m k).skip_advancement = true := by
  have hg1 := greeting_not_guard1 m h
  have hc := greeting_short m h
  by_cases hk : k < 2
  · simp [evalGuards123, hg1, hk]
  · simp [evalGuards123, hg1, hk, hc]

theorem evalGuards_pass (m : List Char) (k : Nat) (hk : 2 ≤ k)
    (hg : isGreeting m = false) (hl : 10 ≤ m.length) :
    (evalGuards m k).skip_advancement = false := by
  have hk' : ¬ k < 2 := Nat.not_lt.mpr hk
  have hl' : ¬ m.length < 10 := Nat.not_lt.mpr hl
  by_cases h1 : guard1 m
  · simp [evalGuards, evalGuards123, h1, hg]
  · simp [evalGuards, evalGuards123, h1, hk', hl', hg]

theorem mentorFlow_skip (env : Env) (sid : List Char) (s : Session)
    (content ai : List Char)
    (hm : containsSub marker ai = true)
    (hskip : (evalGuards (normMsg content)
        (s.step_interactions s.current_step_index + 1)).skip_advancement = true) :
    mentorFlow env sid s content ai =
      ⟨{ s with step_interactions := bumpStep s.step_interactions s.current_step_index,
                memory := appendMem s.memory s.agent content (replaceAll marker ai) },
        replaceAll marker ai, [],
        [skipLog sid ((evalGuards (normMsg content)
            (s.step_interactions s.current_step_index + 1)).advancement_reason.getD [])]
          ++ (increment_interactions env.database_url env.db sid).logs,
        [.bumpInteractions sid]⟩ := by
  simp only [mentorFlow, bumpStep_self, hm, hskip, if_true, ite_true]

theorem mentorFlow_advance (env : Env) (sid : List Char) (s : Session)
    (content ai : List Char)
    (hm : containsSub marker ai = true)
    (hskip : (evalGuards (normMsg content)
        (s.step_interactions s.current_step_index + 1)).skip_advancement = false)
    (hlt : s.current_step_index < total_steps - 1) :
    mentorFlow env sid s content ai =
      ⟨{ s with current_step_index := s.current_step_index + 1,
                current_step := pitch_steps.getD (s.current_step_index + 1) [],
                step_interactions := bumpStep s.step_interactions s.current_step_index,
                memory := appendMem s.memory s.agent content (replaceAll marker ai) },
        replaceAll marker ai,
        [.stepAdvanced (pitch_steps.getD (s.current_step_index + 1) [])],
        [approveLog sid (s.step_interactions s.current_step_index + 1)]
          ++ (save_session_to_db env.database_url env.db sid (s.current_step_index + 1)
              (some (s.step_interactions s.current_step_index + 1)) none).logs
          ++ (increment_interactions env.database_url env.db sid).logs,
        [.upsertSession sid (s.current_step_index + 1)
            (some (s.step_interactions s.current_step_index + 1)),
         .bumpInteractions sid]⟩ := by
  simp only [mentorFlow, bumpStep_self, hm, hskip, hlt, if_true, ite_true,
    Bool.false_eq_true, if_false, ite_false]

theorem mentorFlow_terminal (env : Env) (sid : List Char) (s : Session)
    (content ai : List Char)
    (hm : containsSub marker ai = true)
    (hskip : (evalGuards (normMsg content)
        (s.step_interactions s.current_step_index + 1)).skip_advancement = false)
    (heq : s.current_step_index = total_steps - 1) :
    mentorFlow env sid s content ai =
      ⟨{ s with step_interactions := bumpStep s.step_interactions s.current_step_index,
                memory := appendMem s.memory s.agent content (replaceAll marker ai) },
        replaceAll marker ai,
        [.allStepsComplete],
        [approveLog sid (s.step_interactions s.current_step_index + 1)]
          ++ (save_session_to_db env.database_url env.db sid s.current_step_index
              (some (s.step_interactions s.current_step_index + 1)) none).logs
          ++ (increment_interactions env.database_url env.db sid).logs,
        [.upsertSession sid s.current_step_index
            (some (s.step_interactions s.current_step_index + 1)),
         .bumpInteractions sid]⟩ := by
  have hlt : ¬ s.current_step_index < total_steps - 1 := by omega
  simp only [mentorFlow, bumpStep_self, hm, hskip, if_true, ite_true,
    Bool.false_eq_true, if_false, ite_false]
  rw [if_neg hlt, if_pos heq]

theorem mentorFlow_index (env : Env) (sid : List Char) (s : Session)
    (content ai : List Char) :
    ((mentorFlow env sid s content ai).session.current_step_index = s.current_step_index ∧
      (∀ nm, Notification.stepAdvanced nm ∉ (mentorFlow env sid s content ai).notifications)) ∨
    (s.current_step_index < total_steps - 1 ∧
      (mentorFlow env sid s content ai).session.current_step_index = s.current_step_index + 1 ∧
      (mentorFlow env sid s content ai).notifications =
        [Notification.stepAdvanced (pitch_steps.getD (s.current_step_index + 1) [])]) := by
  by_cases hm : containsSub marker ai = true
  · by_cases hskip : (evalGuards (normMsg content)
        (s.step_interactions s.current_step_index + 1)).skip_advancement = true
    · rw [mentorFlow_skip env sid s content ai hm hskip]
      exact Or.inl ⟨rfl, by simp⟩
    · have hskip' : (evalGuards (normMsg content)
          (s.step_interactions s.current_step_index + 1)).skip_advancement = false := by
        simpa using hskip
      by_cases hlt : s.current_step_index < total_steps - 1
      · rw [mentorFlow_advance env sid s content ai hm hskip' hlt]
        exact Or.inr ⟨hlt, rfl, rfl⟩
      · by_cases heq : s.current_step_index = total_steps - 1
        · rw [mentorFlow_terminal env sid s content ai hm hskip' heq]
          exact Or.inl ⟨rfl, by simp⟩
        · refine Or.inl ?_
          simp only [mentorFlow, bumpStep_self, hm, hskip', if_true, ite_true,
            Bool.false_eq_true, if_false, ite_false]
          rw [if_neg hlt, if_neg heq]
          exact ⟨by simp, by simp⟩
  · have hm' : containsSub marker ai = false := by simpa using hm
    refine Or.inl ?_
    simp only [mentorFlow, hm', Bool.false_eq_true, if_false, ite_false]
    exact ⟨by simp, by simp⟩

theorem process_file_frame (env : Env) (sid : List Char) (s : Session) (f : UploadedFile) :
    (process_file env sid s f).session = s ∧
    (∀ nm, Notification.stepAdvanced nm ∉ (process_file env sid s f).notifications) := by
  simp only [process_file]
  rcases hx : (extract_text_from_file f.name f.parse).1 with _ | t
  · exact ⟨by simp, by simp⟩
  · rcases hev : f.evalResult with e | fb <;>
      by_cases ht : t.isEmpty <;>
        simp [ht]

/-! ## The claims -/

/-- C1: for every step index i in [0, N-1) with N = 5, a committed step
advance (one that emits the step-advanced message) sets the session's index
to exactly i + 1; no single message handled by `main` changes the index by
more than 1; and an index within [0, 4] stays within [0, 4]. -/
theorem C1_step_index_changes_at_most_one :
    ∀ (env : Env) (s : Session) (content : List Char)
      (ai : Except (List Char) (List Char)),
      total_steps = 5 ∧
      freshSession.current_step_index = 0 ∧
      ((mainHandle env s content ai).session.current_step_index = s.current_step_index ∨
        (mainHandle env s content ai).session.current_step_index = s.current_step_index + 1) ∧
      (∀ nm, Notification.stepAdvanced nm ∈ (mainHandle env s content ai).notifications →
        s.current_step_index < total_steps - 1 ∧
        (mainHandle env s content ai).session.current_step_index = s.current_step_index + 1) ∧
      (s.current_step_index ≤ total_steps - 1 →
        (mainHandle env s content ai).session.current_step_index ≤ total_steps - 1) := by
  intro env s content ai
  refine ⟨rfl, rfl, ?_⟩
  have main_cases :
      ((mainHandle env s content ai).session.current_step_index = s.current_step_index ∧
        (∀ nm, Notification.stepAdvanced nm ∉ (mainHandle env s content ai).notifications)) ∨
      (s.current_step_index < total_steps - 1 ∧
        (mainHandle env s content ai).session.current_step_index = s.current_step_index + 1) := by
    cases hsid : env.student_id with
    | none => simp [mainHandle, hsid]
    | some sid =>
      by_cases hp : (lowerCs content == "/progress".data) = true
      · simp [mainHandle, hsid, hp]
      · by_cases hu : (lowerCs content == "/upload".data) = true
        · cases hupload : env.upload with
          | none => simp [mainHandle, hsid, hp, hu, hupload]
          | some f =>
            have hf := process_file_frame env sid s f
            simp only [mainHandle, hsid, hp, hu, hupload, Bool.false_eq_true,
              if_false, ite_false, if_true, ite_true]
            exact Or.inl ⟨by rw [hf.1], hf.2⟩
        · by_cases hsw : lowerCs content ∈ switchCmds
          · simp [mainHandle, hsid, hp, hu, hsw]
          · cases hai : ai with
            | error e => simp [mainHandle, hsid, hp, hu, hsw, hai]
            | ok ai_text =>
              by_cases hag : (s.agent == "mentor".data) = true
              · simp only [mainHandle, hsid, hp, hu, hsw, hai, hag,
                  Bool.false_eq_true, if_false, ite_false, if_true, ite_true]
                rcases mentorFlow_index env sid s content ai_text with h | h
                · exact Or.inl ⟨h.1, h.2⟩
                · exact Or.inr ⟨h.1, h.2.1⟩
              · simp [mainHandle, hsid, hp, hu, hsw, hai, hag]
  rcases main_cases with ⟨h1, h2⟩ | ⟨h1, h2⟩
  · exact ⟨Or.inl h1, fun nm hnm => absurd hnm (h2 nm), fun hb => h1 ▸ hb⟩
  · refine ⟨Or.inr h2, fun nm _ => ⟨h1, h2⟩, fun _ => ?_⟩
    rw [h2]
    omega

/-- C2 as corrected: when a Mentor reply contains the completion marker, a
user message equal to `/next` or containing `next step` passes regardless of
every other guard; otherwise a counter below 2 blocks advancement — but the
recorded reason is `insufficient interactions (only k)` only when the message
is not a greeting token; a greeting token verbatim gets the reason
`message contains only greeting` instead. -/
theorem C2_advance_phrase_overrides_and_guard2_blocks :
    ∀ (m : List Char) (k : Nat),
      (guard1 m = true → (evalGuards m k).skip_advancement = false) ∧
      (guard1 m = false → k < 2 →
        (evalGuards m k).skip_advancement = true ∧
        (evalGuards m k).advancement_reason =
          some (if isGreeting m then greetingReason else insufficientReason k)) := by
  intro m k
  constructor
  · intro h1
    have hg : isGreeting m = false := by
      cases hgm : isGreeting m
      · rfl
      · rw [greeting_not_guard1 m hgm] at h1
        exact absurd h1 (by decide)
    simp [evalGuards, evalGuards123, h1, hg]
  · intro h1 hk
    cases hg : isGreeting m with
    | false => simp [evalGuards, evalGuards123, h1, hk, hg]
    | true => simp [evalGuards, hg]

/-- C2 counterexample: with the completion marker present, the greeting
message `hi` at interaction count 0 is blocked, but the recorded reason is
`message contains only greeting`, not `insufficient interactions` as the
claim states (guard 4 overwrites the reason guard 2 set). -/
theorem C2_counterexample_greeting_overwrites_reason :
    guard1 "hi".data = false ∧
    evalGuards "hi".data 0 = ⟨true, some greetingReason⟩ ∧
    (evalGuards "hi".data 0).advancement_reason ≠ some (insufficientReason 0) := by
  decide

/-- C4 as corrected: the greeting guard is evaluated unconditionally after
guards 1-3 and overwrites the recorded reason for any message equal to a
greeting token verbatim — but every greeting token is shorter than 10
characters, so such a message is already blocked by guard 2 or guard 3, and
no message that passes guards 1-3 is blocked by guard 4. -/
theorem C4_greeting_already_blocked_before_guard4 :
    ∀ (m : List Char) (k : Nat), isGreeting m = true →
      (evalGuards123 m k).skip_advancement = true ∧
      evalGuards m k = ⟨true, some greetingReason⟩ := by
  intro m k h
  refine ⟨greeting_blocked123 m k h, ?_⟩
  simp [evalGuards, h]

theorem C4_witness :
    (evalGuards123 "hi".data 5).skip_advancement = true ∧
    evalGuards "hi".data 5 = ⟨true, some greetingReason⟩ :=
  C4_greeting_already_blocked_before_guard4 "hi".data 5 (by decide)

/-- C4 counterexample: the claimed message — one passing guards 1-3 yet
equal to a greeting token verbatim — does not exist, at any interaction
count. -/
theorem C4_counterexample_no_passing_greeting :
    ¬ ∃ (m : List Char) (k : Nat),
        (evalGuards123 m k).skip_advancement = false ∧ isGreeting m = true := by
  rintro ⟨m, k, hpass, hg⟩
  rw [greeting_blocked123 m k hg] at hpass
  exact absurd hpass (by decide)

/-- C9: the `/progress` command mutates no session state, so two consecutive
progress checks (at any two wall-clock instants, with any completion-service
responses) report the same percentage-complete and interaction count. -/
theorem C9_progress_check_idempotent :
    ∀ (env : Env) (t2 : Nat) (s : Session)
      (ai1 ai2 : Except (List Char) (List Char)),
      (mainHandle env s "/progress".data ai1).session = s ∧
      reportedPct (mainHandle { env with elapsed_minutes := t2 }
          (mainHandle env s "/progress".data ai1).session "/progress".data ai2)
        = reportedPct (mainHandle env s "/progress".data ai1) ∧
      reportedCount (mainHandle { env with elapsed_minutes := t2 }
          (mainHandle env s "/progress".data ai1).session "/progress".data ai2)
        = reportedCount (mainHandle env s "/progress".data ai1) := by
  intro env t2 s ai1 ai2
  have hp : (lowerCs "/progress".data == "/progress".data) = true := by decide
  cases hsid : env.student_id with
  | none => simp [mainHandle, hsid, reportedPct, reportedCount]
  | some sid => simp [mainHandle, hsid, hp, reportedPct, reportedCount]

/-- C10: one Mentor free-text message increments the per-step counter before
the guards run, so the triggering message itself counts: with the marker on
the first Mentor message of a step (prior count 0) advancement is blocked and
the logged count is 1, not 0; with the marker on the second Mentor message
(prior count 1) guard 2 is already satisfied and a long non-greeting message
advances the step. -/
theorem C10_counter_incremented_before_guards :
    ∀ (env : Env) (sid : List Char) (s : Session) (content ai : List Char),
      ((mentorFlow env sid s content ai).session.step_interactions s.current_step_index
          = s.step_interactions s.current_step_index + 1) ∧
      (containsSub marker ai = true →
        s.step_interactions s.current_step_index = 0 →
        guard1 (normMsg content) = false →
        (mentorFlow env sid s content ai).session.current_step_index = s.current_step_index ∧
        (isGreeting (normMsg content) = false →
          skipLog sid (insufficientReason 1) ∈ (mentorFlow env sid s content ai).logs)) ∧
      (containsSub marker ai = true →
        s.step_interactions s.current_step_index = 1 →
        isGreeting (normMsg content) = false →
        10 ≤ (normMsg content).length →
        s.current_step_index < total_steps - 1 →
        (mentorFlow env sid s content ai).session.current_step_index
          = s.current_step_index + 1) := by
  intro env sid s content ai
  refine ⟨?_, ?_, ?_⟩
  · simp only [mentorFlow]
    split_ifs <;> simp [bumpStep_self]
  · intro hm h0 hg1
    have hskip : (evalGuards (normMsg content)
        (s.step_interactions s.current_step_index + 1)).skip_advancement = true := by
      rw [h0]
      cases hgg : isGreeting (normMsg content) with
      | true => simp [evalGuards, hgg]
      | false =>
        simp [evalGuards, evalGuards123, hg1, hgg, show (1 : Nat) < 2 from by decide]
    rw [mentorFlow_skip env sid s content ai hm hskip]
    refine ⟨rfl, fun hgg => ?_⟩
    have hreason : (evalGuards (normMsg content)
        (s.step_interactions s.current_step_index + 1)).advancement_reason
          = some (insufficientReason 1) := by
      rw [h0]
      simp [evalGuards, evalGuards123, hg1, hgg, show (1 : Nat) < 2 from by decide]
    simp [hreason]
  · intro hm h1 hgg hlen hlt
    have hskip : (evalGuards (normMsg content)
        (s.step_interactions s.current_step_index + 1)).skip_advancement = false := by
      rw [h1]
      exact evalGuards_pass _ _ (by omega) hgg hlen
    rw [mentorFlow_advance env sid s content ai hm hskip hlt]

/-- C6: whenever a Mentor reply contains the completion marker, the displayed
text is the reply with every occurrence of the marker removed — in the
blocked branches exactly as in the commit branches; in particular (scenario
A) at step 0 with prior interaction count 0 and the 5-character message
`abcde`, the marker is stripped, the index stays 0, and the skip is logged
with reason `insufficient interactions (only 1)`. -/
theorem C6_marker_stripped_in_every_branch :
    ∀ (env : Env) (sid : List Char) (s : Session) (content ai : List Char),
      (containsSub marker ai = true →
        (mentorFlow env sid s content ai).displayed_text = replaceAll marker ai) ∧
      ((mentorFlow envOk "12345678".data freshSession "abcde".data
          scenarioAReply).session.current_step_index = 0 ∧
        containsSub marker (mentorFlow envOk "12345678".data freshSession "abcde".data
          scenarioAReply).displayed_text = false ∧
        skipLog "12345678".data (insufficientReason 1)
          ∈ (mentorFlow envOk "12345678".data freshSession "abcde".data
              scenarioAReply).logs ∧
        ("abcde".data).length = 5 ∧
        containsSub marker scenarioAReply = true) := by
  intro env sid s content ai
  constructor
  · intro hm
    simp only [mentorFlow, hm, if_true, ite_true]
    split_ifs <;> rfl
  · refine ⟨by decide, by decide, by decide, by decide, by decide⟩

/-- C5: when the index is already at the last step (4 = N-1) and every guard
approves the advance, the index is not incremented, the state is persisted
once more (an upsert with the unchanged index), and the all-steps-complete
message — distinct from the per-step step-advanced message — is the only
notification emitted. -/
theorem C5_terminal_step_not_incremented :
    ∀ (env : Env) (sid : List Char) (s : Session) (content ai : List Char),
      s.current_step_index = total_steps - 1 →
      containsSub marker ai = true →
      (evalGuards (normMsg content)
        (s.step_interactions s.current_step_index + 1)).skip_advancement = false →
      (mentorFlow env sid s content ai).session.current_step_index = s.current_step_index ∧
      (mentorFlow env sid s content ai).notifications = [Notification.allStepsComplete] ∧
      StoreCall.upsertSession sid s.current_step_index
          (some (s.step_interactions s.current_step_index + 1))
        ∈ (mentorFlow env sid s content ai).store_calls := by
  intro env sid s content ai heq hm hskip
  rw [mentorFlow_terminal env sid s content ai hm hskip heq]
  exact ⟨rfl, rfl, by simp⟩

theorem C5_witness :
    (mentorFlow envOk "12345678".data termSession
        "explain more about my audience".data
        "done [STEP_COMPLETED]".data).session.current_step_index
      = termSession.current_step_index ∧
    (mentorFlow envOk "12345678".data termSession
        "explain more about my audience".data
        "done [STEP_COMPLETED]".data).notifications = [Notification.allStepsComplete] ∧
    StoreCall.upsertSession "12345678".data termSession.current_step_index
        (some (termSession.step_interactions termSession.current_step_index + 1))
      ∈ (mentorFlow envOk "12345678".data termSession
          "explain more about my audience".data
          "done [STEP_COMPLETED]".data).store_calls :=
  C5_terminal_step_not_incremented envOk "12345678".data termSession
    "explain more about my audience".data "done [STEP_COMPLETED]".data
    (by decide) (by decide) (by decide)

/-- C7: each of the three store operations catches every database failure and
returns `False` (with an error log) instead of raising, and a store failure
during a step advance is non-fatal: the in-memory index still advances, the
step-advanced message is still sent, and the store error is logged. -/
theorem C7_store_errors_caught_and_nonfatal :
    ∀ (e : List Char),
      (∀ url sid idx ti lm,
        (save_session_to_db url (.fail e) sid idx ti lm).success = false ∧
        ((save_session_to_db url (.fail e) sid idx ti lm).logs.any
          fun le => le.level == LogLevel.error) = true) ∧
      (∀ url sid stp sc fb,
        (save_pitch_evaluation url (.fail e) sid stp sc fb).success = false ∧
        ((save_pitch_evaluation url (.fail e) sid stp sc fb).logs.any
          fun le => le.level == LogLevel.error) = true) ∧
      (∀ url sid,
        (increment_interactions url (.fail e) sid).success = false ∧
        ((increment_interactions url (.fail e) sid).logs.any
          fun le => le.level == LogLevel.error) = true) ∧
      (∀ (env : Env) (sid : List Char) (s : Session) (content ai : List Char),
        env.db = DbOutcome.fail e →
        containsSub marker ai = true →
        (evalGuards (normMsg content)
          (s.step_interactions s.current_step_index + 1)).skip_advancement = false →
        s.current_step_index < total_steps - 1 →
        (mentorFlow env sid s content ai).session.current_step_index
            = s.current_step_index + 1 ∧
        Notification.stepAdvanced (pitch_steps.getD (s.current_step_index + 1) [])
            ∈ (mentorFlow env sid s content ai).notifications ∧
        ((mentorFlow env sid s content ai).logs.any
          fun le => le.level == LogLevel.error) = true) := by
  intro e
  refine ⟨?_, ?_, ?_, ?_⟩
  · intro url sid idx ti lm
    cases url <;> simp [save_session_to_db]
  · intro url sid stp sc fb
    cases url <;> simp [save_pitch_evaluation]
  · intro url sid
    cases url <;> simp [increment_interactions]
  · intro env sid s content ai hdb hm hskip hlt
    rw [mentorFlow_advance env sid s content ai hm hskip hlt]
    refine ⟨rfl, by simp, ?_⟩
    rw [hdb]
    cases env.database_url <;> simp [save_session_to_db]

/-- C8 counterexample: a parse exception on a `.pdf` file is logged at error
level, not the warning level the claim states — the log list carries no
warning entry. -/
theorem C8_counterexample_parse_exception_logs_error :
    extract_text_from_file "pitch.pdf".data (Except.error "connection reset".data)
      = (none, [⟨LogLevel.error,
          "Error extracting text from pitch.pdf: connection reset".data⟩]) ∧
    ((extract_text_from_file "pitch.pdf".data
        (Except.error "connection reset".data)).2.any
      fun le => le.level == LogLevel.warning) = false := by
  decide

/-- C8 as corrected: the extractor branches purely on the file-name suffix;
any other suffix yields a null result (never an empty string) with a warning
log; a parse exception also yields null but logs at error level, not warning
level; the function never raises (it is total, returning the pair of result
and logs); and an uploaded `.txt` file produces the unsupported-format
message with no evaluation record. -/
theorem C8_extractor_null_never_raises :
    ∀ (name e : List Char) (parse : Except (List Char) (List (List Char)))
      (env : Env) (sid : List Char) (s : Session)
      (p : Except (List Char) (List (List Char)))
      (ev : Except (List Char) (List Char)),
      (endsWithCs name ".pdf".data = false → endsWithCs name ".docx".data = false →
        extract_text_from_file name parse =
          (none, [⟨LogLevel.warning, "Unsupported file type: ".data ++ name⟩])) ∧
      ((endsWithCs name ".pdf".data = true ∨ endsWithCs name ".docx".data = true) →
        extract_text_from_file name (Except.error e) =
          (none, [⟨LogLevel.error,
            "Error extracting text from ".data ++ name ++ ": ".data ++ e⟩])) ∧
      ((process_file env sid s ⟨"mypitch.txt".data, p, ev⟩).notifications
          = [Notification.cannotExtract] ∧
        (process_file env sid s ⟨"mypitch.txt".data, p, ev⟩).store_calls = [] ∧
        LogEntry.mk LogLevel.warning "Unsupported file type: mypitch.txt".data
          ∈ (process_file env sid s ⟨"mypitch.txt".data, p, ev⟩).logs) := by
  intro name e parse env sid s p ev
  have htxt : extract_text_from_file "mypitch.txt".data p =
      (none, [⟨LogLevel.warning, "Unsupported file type: mypitch.txt".data⟩]) := rfl
  refine ⟨?_, ?_, ?_⟩
  · intro h1 h2
    simp [extract_text_from_file, h1, h2]
  · intro h
    by_cases hpdf : endsWithCs name ".pdf".data = true
    · simp [extract_text_from_file, hpdf]
    · rcases h with h | h
      · exact absurd h hpdf
      · simp [extract_text_from_file, hpdf, h]
  · simp [process_file, htxt]

/-- C3 counterexample: the score label is required and only its initial
letter is case-insensitive — `SCORE: 8/10` and a label-free `8/10` both parse
to no score in the code, while the claim reads them as 8; conversely the
digits need not immediately precede the literal `/10`: `Score: 8 / 10`
parses to 8. -/
theorem C3_counterexample_label_semantics :
    findScore "SCORE: 8/10".data = none ∧
    claimScore "SCORE: 8/10".data = some 8 ∧
    findScore "I would rate this 8/10".data = none ∧
    claimScore "I would rate this 8/10".data = some 8 ∧
    findScore "Score: 8 / 10".data = some 8 := by
  decide

/-- C3 as corrected: the parsed score is the first 1-2 digit integer preceded
by a `Score`/`score` label (only the initial letter varies in case) and one
or more colon/whitespace characters, and followed by optional whitespace,
`/`, optional whitespace, `10`; when no such match exists the recorded score
is null, never 0; scenario E parses 8 and stores the feedback text
verbatim. -/
theorem C3_score_parsing :
    ∀ (env : Env) (sid : List Char) (s : Session) (fb : List Char),
      findScore scenarioEFeedback = some 8 ∧
      (process_file env sid s ⟨"pitch.docx".data, Except.ok ["my pitch".data],
          Except.ok scenarioEFeedback⟩).store_calls
        = [StoreCall.insertEvaluation sid s.current_step (some 8) scenarioEFeedback] ∧
      (process_file env sid s ⟨"pitch.docx".data, Except.ok ["my pitch".data],
          Except.ok scenarioEFeedback⟩).notifications
        = [Notification.evaluationComplete (some 8) scenarioEFeedback] ∧
      (findScore fb = none →
        (process_file env sid s ⟨"pitch.docx".data, Except.ok ["my pitch".data],
            Except.ok fb⟩).store_calls
          = [StoreCall.insertEvaluation sid s.current_step none fb]) := by
  intro env sid s fb
  have hx : extract_text_from_file "pitch.docx".data
      (Except.ok ["my pitch".data]) = (some "my pitch".data, []) := by decide
  have hne : ("my pitch".data).isEmpty = false := by decide
  have hsc : findScore scenarioEFeedback = some 8 := by decide
  refine ⟨hsc, ?_, ?_, ?_⟩
  · simp [process_file, hx, hne, hsc]
  · simp [process_file, hx, hne, hsc]
  · intro h
    simp [process_file, hx, hne, h]

end AgentBot
